import Mathlib

/-!
# deconz-exporter: the poll / classify / publish loop of `main.go`

A shallow embedding of `main.go`:

* the flag variables, `init` and `evalFlags`;
* the polling URL built by `recordMetrics` and rendered by `url.URL.String`;
* `pollSensors`, with the network and the JSON decoder as explicit inputs;
* the body of the `range sensors` loop (`publish`), one poll cycle (`cycle`)
  and finite prefixes of the endless loop (`runCycles`);
* the Prometheus registry: four gauge vectors and one counter.

The mutable package-level metrics become an explicit `Registry` value passed
through every step. Printing done under `verbose` goes to standard output,
which is not part of the registry and is left out of the state.
-/

namespace DeconzExporter

/-! ## Floating point -/

/-- The three `float64` primitives `recordMetrics` uses: the conversion
`float64(n)` of an `int`, the quotient `x / y`, and the constant `100.0`.
Every definition below is generic in the carrier `F`, so every theorem holds
for any reading of these primitives, IEEE-754 binary64 included. -/
class Float64Ops (F : Type) where
  /-- Go `float64(n)` for an `int` value `n`. -/
  ofInt : Int → F
  /-- Go `x / y` on `float64`. -/
  div : F → F → F
  /-- Go constant `100.0`. -/
  hundred : F

/-- Exact rational arithmetic as an executable reading of the `float64`
primitives. It agrees with binary64 wherever the exact result is a binary64
value, as for `float64(2150) / 100.0 = 21.5` and `float64(87) = 87`. -/
instance ratFloat64Ops : Float64Ops ℚ where
  ofInt n := (n : ℚ)
  div x y := x / y
  hundred := 100

/-! ## Sensor records -/

/-- Modelled from the spec: the `state` object of a sensor; the Go type
declaration is not part of `main.go`. Fields are Go `int`. -/
structure SensorState where
  Temperature : Int
  Humidity : Int
  Pressure : Int
  deriving DecidableEq, Repr

/-- Modelled from the spec: the `config` object of a sensor; the Go type
declaration is not part of `main.go`. -/
structure SensorConfig where
  Battery : Int
  deriving DecidableEq, Repr

/-- Modelled from the spec: the `Sensor` struct that `json.Unmarshal` fills in
`pollSensors`; its declaration is not part of `main.go`. `Type_` is the Go
field `Type`. -/
structure Sensor where
  Name : String
  UID : String
  Manufacturer : String
  ModelID : String
  Type_ : String
  State : SensorState
  Config : SensorConfig
  deriving DecidableEq, Repr

/-! ## The metric registry -/

/-- A `prometheus.Labels` value over the label names of `labels`
(`name`, `uid`, `manufacturer`, `model`, `type`). -/
structure Labels where
  name : String
  uid : String
  manufacturer : String
  model : String
  type : String
  deriving DecidableEq, Repr

/-- A `prometheus.GaugeVec`: for each label set, the value of its series, or
`none` while the series has not been created. -/
abbrev GaugeVec (F : Type) := Labels → Option F

/-- The effect of `vec.With(labels).Set(v)`: the series for `labels` is created if needed
and holds `v`; all other series are as before. -/
def GaugeVec.set {F : Type} (vec : GaugeVec F) (labels : Labels) (v : F) : GaugeVec F :=
  fun l => if l = labels then some v else vec l

/-- The package-level metrics of `main.go`. `errorCtr` counts `Inc()` calls. -/
structure Registry (F : Type) where
  tmpMetric : GaugeVec F
  btryMetric : GaugeVec F
  humidMetric : GaugeVec F
  pressureMetric : GaugeVec F
  errorCtr : Nat

/-- The registry right after the package-level `var` block ran: the four
`promauto.NewGaugeVec` vectors have no series and the counter is 0. -/
def Registry.initial (F : Type) : Registry F :=
  { tmpMetric := fun _ => none
    btryMetric := fun _ => none
    humidMetric := fun _ => none
    pressureMetric := fun _ => none
    errorCtr := 0 }

/-- The effect of `errorCtr.Inc()`. -/
def Registry.incErrorCtr {F : Type} (reg : Registry F) : Registry F :=
  { reg with errorCtr := reg.errorCtr + 1 }

/-- The four gauge families. -/
inductive Family where
  | temperature
  | battery
  | humidity
  | pressure
  deriving DecidableEq, Repr

/-- The gauge vector of a family. -/
def Registry.gauge {F : Type} (reg : Registry F) : Family → GaugeVec F
  | .temperature => reg.tmpMetric
  | .battery => reg.btryMetric
  | .humidity => reg.humidMetric
  | .pressure => reg.pressureMetric

/-! ## Publishing one record: the body of `for _, sensor := range sensors` -/

/-- The `labels` value built at the top of the loop body. -/
def sensorLabels (sensor : Sensor) : Labels :=
  { name := sensor.Name
    uid := sensor.UID
    manufacturer := sensor.Manufacturer
    model := sensor.ModelID
    type := sensor.Type_ }

/-- One iteration of the `range sensors` loop: build the labels, then the
`switch sensor.Type`. -/
def publish {F : Type} [Float64Ops F] (reg : Registry F) (sensor : Sensor) : Registry F :=
  let labels := sensorLabels sensor
  if sensor.Type_ = "ZHATemperature" then
    let reg1 := { reg with
      btryMetric := reg.btryMetric.set labels (Float64Ops.ofInt sensor.Config.Battery) }
    { reg1 with
      tmpMetric := reg1.tmpMetric.set labels
        (Float64Ops.div (Float64Ops.ofInt sensor.State.Temperature) Float64Ops.hundred) }
  else if sensor.Type_ = "ZHAHumidity" then
    { reg with
      humidMetric := reg.humidMetric.set labels
        (Float64Ops.div (Float64Ops.ofInt sensor.State.Humidity) Float64Ops.hundred) }
  else if sensor.Type_ = "ZHAPressure" then
    { reg with
      pressureMetric := reg.pressureMetric.set labels (Float64Ops.ofInt sensor.State.Pressure) }
  else
    reg

/-- A decoded `map[string]Sensor`, listed in the order in which `range`
visits its entries. Go leaves that order unspecified, so every ordering of
the entries is a possible value. The `nil` map is `[]`. -/
abbrev SensorMap := List (String × Sensor)

/-- The whole `for _, sensor := range sensors` loop. -/
def publishAll {F : Type} [Float64Ops F] (reg : Registry F) (sensors : SensorMap) : Registry F :=
  sensors.foldl (fun acc kv => publish acc kv.2) reg

/-! ## Flags: the package variables, `init`, `flag.Parse`, `evalFlags` -/

/-- The four flag variables `token`, `host`, `port`, `verbose`. -/
structure Flags where
  token : String
  host : String
  port : Int
  verbose : Bool
  deriving DecidableEq, Repr

/-- The initialisers of the package-level `var` block. -/
def packageVars : Flags :=
  { host := "192.168.0.222", port := 1702, token := "", verbose := false }

/-- Go `init()`: each `flag.XxxVar(&v, name, value, usage)` stores the
default `value` into `v` when it registers the flag, replacing the initialiser
of the `var` block. -/
def init (_vars : Flags) : Flags :=
  { token := "", host := "localhost", port := 0, verbose := false }

/-- What the command line supplies: for each flag, its value when the flag
was given (`none` when it was not). -/
structure CommandLine where
  token : Option String
  host : Option String
  port : Option Int
  verbose : Option Bool
  deriving DecidableEq, Repr

/-- A successful `flag.Parse()`: a supplied flag overwrites its variable, a
flag that was not supplied leaves the variable at the registered default. -/
def flagParse (cl : CommandLine) (vars : Flags) : Flags :=
  { token := cl.token.getD vars.token
    host := cl.host.getD vars.host
    port := cl.port.getD vars.port
    verbose := cl.verbose.getD vars.verbose }

/-- The flag variables as `main` sees them when it calls `evalFlags`. -/
def startupFlags (cl : CommandLine) : Flags :=
  flagParse cl (init packageVars)

/-- A Go `error`, kept as its message; `none` is `nil`. -/
abbrev GoError := String

/-- Go `evalFlags`. -/
def evalFlags (fl : Flags) : Option GoError :=
  if fl.token = "" then
    some "token is required"
  else if fl.host = "" then
    some "host is required"
  else if fl.port = 0 then
    some "port is required"
  else
    none

/-! ## The polling URL -/

/-- The escaping modes of Go `net/url`. -/
inductive Encoding where
  | encodePath
  | encodePathSegment
  | encodeHost
  | encodeZone
  | encodeUserPassword
  | encodeQueryComponent
  | encodeFragment
  deriving DecidableEq, Repr

/-- Byte `c` is the ASCII character `ch`. -/
def byteIs (c : UInt8) (ch : Char) : Bool :=
  c.toNat == ch.toNat

/-- Byte `c` is one of the ASCII characters of `chs`. -/
def byteIn (c : UInt8) (chs : List Char) : Bool :=
  chs.any (byteIs c)

/-- ASCII letters and digits. -/
def isAlnum (c : UInt8) : Bool :=
  ('a'.toNat ≤ c.toNat && c.toNat ≤ 'z'.toNat) ||
  ('A'.toNat ≤ c.toNat && c.toNat ≤ 'Z'.toNat) ||
  ('0'.toNat ≤ c.toNat && c.toNat ≤ '9'.toNat)

/-- Go `net/url.shouldEscape`: whether byte `c` is percent-encoded in a URL
component of kind `mode`. -/
def shouldEscape (c : UInt8) (mode : Encoding) : Bool :=
  if isAlnum c then false
  else if (mode = .encodeHost || mode = .encodeZone) &&
      byteIn c ['!', '$', '&', Char.ofNat 39, '(', ')', '*', '+', ',', ';', '=', ':',
        '[', ']', '<', '>', Char.ofNat 34] then false
  else if byteIn c ['-', '_', '.', '~'] then false
  else if byteIn c ['$', '&', '+', ',', '/', ':', ';', '=', '?', '@'] &&
      mode = .encodePath then byteIs c '?'
  else if byteIn c ['$', '&', '+', ',', '/', ':', ';', '=', '?', '@'] &&
      mode = .encodePathSegment then
    byteIs c '/' || byteIs c ';' || byteIs c ',' || byteIs c '?'
  else if byteIn c ['$', '&', '+', ',', '/', ':', ';', '=', '?', '@'] &&
      mode = .encodeUserPassword then
    byteIs c '@' || byteIs c '/' || byteIs c '?' || byteIs c ':'
  else if byteIn c ['$', '&', '+', ',', '/', ':', ';', '=', '?', '@'] &&
      mode = .encodeQueryComponent then true
  else if byteIn c ['$', '&', '+', ',', '/', ':', ';', '=', '?', '@'] &&
      mode = .encodeFragment then false
  else if mode = .encodeFragment && byteIn c ['!', '(', ')', '*'] then false
  else true

/-- Go `upperhex[n]`. -/
def upperhex (n : Nat) : Char :=
  "0123456789ABCDEF".data.getD n '0'

/-- What Go `net/url.escape` writes for one input byte. -/
def escapeByte (mode : Encoding) (c : UInt8) : List Char :=
  if byteIs c ' ' && mode = .encodeQueryComponent then ['+']
  else if shouldEscape c mode then
    ['%', upperhex (c.toNat >>> 4), upperhex (c.toNat &&& 15)]
  else [Char.ofNat c.toNat]

/-- Go `net/url.escape`: the bytes of `s` (its UTF-8 encoding), each one
either kept or replaced by `%XX`. Bytes that are kept are ASCII. -/
def escape (s : String) (mode : Encoding) : String :=
  String.mk ((s.data.flatMap String.utf8EncodeChar).flatMap (escapeByte mode))

/-- Character `c` is encoded in UTF-8 as a single byte and `escape` keeps that
byte as it is in a component of kind `mode`. -/
def keptVerbatim (mode : Encoding) (c : Char) : Bool :=
  decide (c.val ≤ 0x7f) && !shouldEscape c.val.toUInt8 mode

/-- The fields of Go `url.URL` that `String` reads, apart from `User`,
`RawPath`, `RawFragment` and `OmitHost`, which `main.go` leaves at their zero
values. -/
structure URL where
  Scheme : String := ""
  Opaque : String := ""
  Host : String := ""
  Path : String := ""
  ForceQuery : Bool := false
  RawQuery : String := ""
  Fragment : String := ""
  deriving DecidableEq, Repr

/-- Go `(*URL).EscapedPath` for a URL whose `RawPath` is empty. -/
def URL.EscapedPath (u : URL) : String :=
  if u.Path = "*" then "*" else escape u.Path .encodePath

/-- Go `(*URL).String` for a URL without user information. -/
def URL.String_ (u : URL) : String :=
  let buf := ""
  let buf := if u.Scheme ≠ "" then buf ++ u.Scheme ++ ":" else buf
  let buf :=
    if u.Opaque ≠ "" then buf ++ u.Opaque
    else
      let buf :=
        if u.Scheme ≠ "" ∨ u.Host ≠ "" then
          let buf := if u.Host ≠ "" ∨ u.Path ≠ "" then buf ++ "//" else buf
          if u.Host ≠ "" then buf ++ escape u.Host .encodeHost else buf
        else buf
      let path := u.EscapedPath
      let buf :=
        if path ≠ "" ∧ path.data.head? ≠ some '/' ∧ u.Host ≠ "" then buf ++ "/" else buf
      let buf :=
        if buf = "" ∧ (path.data.takeWhile (fun c => c ≠ '/')).contains ':' then buf ++ "./"
        else buf
      buf ++ path
  let buf := if u.ForceQuery ∨ u.RawQuery ≠ "" then buf ++ "?" ++ u.RawQuery else buf
  let buf := if u.Fragment ≠ "" then buf ++ "#" ++ escape u.Fragment .encodeFragment else buf
  buf

/-- The `url` value built at the top of `recordMetrics`:
`Host` is `fmt.Sprintf("%s:%d", host, port)` and `Path` is
`fmt.Sprintf("api/%s/sensors", token)`. -/
def pollURL (fl : Flags) : URL :=
  { Scheme := "http"
    Host := fl.host ++ ":" ++ toString fl.port
    Path := "api/" ++ fl.token ++ "/sensors" }

/-! ## One poll -/

/-- A response handed back by `http.Get`: the bytes and the error that
`ioutil.ReadAll(resp.Body)` returns. -/
structure Response where
  body : List UInt8
  readErr : Option GoError

/-- The outcome of `json.Unmarshal(body, &s)`: the content of `s` afterwards
(which may hold the entries decoded before a failure) and the error. -/
structure Decoded where
  sensors : SensorMap
  err : Option GoError

/-- Go `pollSensors`. The network (`httpGet`, the behaviour of `http.Get` at
the time of the call) and the JSON decoder (`unmarshal`) are inputs. The
result is the Go pair `(map, error)`. -/
def pollSensors (httpGet : String → Except GoError Response) (unmarshal : List UInt8 → Decoded)
    (url : URL) : SensorMap × Option GoError :=
  match httpGet url.String_ with
  | .error err => ([], some err)
  | .ok resp =>
    let body := resp.body
    let err := resp.readErr
    let d := unmarshal body
    match d.err with
    | some e => ([], some e)
    | none => (d.sensors, err)

/-- One iteration of the `for` loop in `recordMetrics`, up to the sleep. -/
def cycle {F : Type} [Float64Ops F] (unmarshal : List UInt8 → Decoded) (url : URL)
    (reg : Registry F) (httpGet : String → Except GoError Response) : Registry F :=
  let r := pollSensors httpGet unmarshal url
  let sensors := r.1
  let err := r.2
  if err ≠ none then
    reg.incErrorCtr
  else
    publishAll reg sensors

/-- Whether the poll of a cycle fails, that is `pollSensors` returns a
non-nil error. -/
def pollFails (unmarshal : List UInt8 → Decoded) (url : URL)
    (httpGet : String → Except GoError Response) : Bool :=
  (pollSensors httpGet unmarshal url).2 ≠ none

/-- The first `nets.length` iterations of the endless loop; `nets` lists the
behaviour of the network at each iteration. -/
def runCycles {F : Type} [Float64Ops F] (unmarshal : List UInt8 → Decoded) (url : URL)
    (reg : Registry F) (nets : List (String → Except GoError Response)) : Registry F :=
  nets.foldl (cycle unmarshal url) reg

/-- The series a record writes when it is published: its own label set, in
the families selected by its type. -/
def familiesOf (type : String) : List Family :=
  if type = "ZHATemperature" then [.battery, .temperature]
  else if type = "ZHAHumidity" then [.humidity]
  else if type = "ZHAPressure" then [.pressure]
  else []

/-! ## Concrete records used to evaluate the model -/

/-- The record of the end-to-end scenario: sensor `"1"`, named `Kitchen`. -/
def kitchen : Sensor :=
  { Name := "Kitchen", UID := "00:11", Manufacturer := "dresden", ModelID := "SML001"
    Type_ := "ZHATemperature"
    State := { Temperature := 2150, Humidity := 0, Pressure := 0 }
    Config := { Battery := 87 } }

/-- A humidity record. -/
def bathroom : Sensor :=
  { Name := "Bathroom", UID := "00:12", Manufacturer := "dresden", ModelID := "SML001"
    Type_ := "ZHAHumidity"
    State := { Temperature := 0, Humidity := 5525, Pressure := 0 }
    Config := { Battery := 64 } }

/-- A pressure record. -/
def attic : Sensor :=
  { Name := "Attic", UID := "00:13", Manufacturer := "dresden", ModelID := "SML001"
    Type_ := "ZHAPressure"
    State := { Temperature := 0, Humidity := 0, Pressure := 1013 }
    Config := { Battery := 40 } }

/-- A record with the given type and otherwise the fields of `kitchen`. -/
def kitchenTyped (type : String) : Sensor :=
  { kitchen with Type_ := type }

/-- A network on which `http.Get` fails with a transport error. -/
def networkDown : String → Except GoError Response :=
  fun _ => .error "dial tcp: connection refused"

/-- A network on which `http.Get` succeeds and the body is read in full. -/
def respond (body : List UInt8) : String → Except GoError Response :=
  fun _ => .ok { body := body, readErr := none }

/-- The record `kitchen` after the sensor was renamed, with a new reading. -/
def pantry : Sensor :=
  { kitchen with Name := "Pantry", State := { kitchen.State with Temperature := 1900 } }

/-- A stand-in decoder: the body `[1]` decodes to the single entry
`"1" ↦ kitchen`, the body `[2]` to `"1" ↦ pantry, "2" ↦ bathroom`, the
body `[3]` fails after the entry `"1" ↦ kitchen` was stored, every other
body fails at once. -/
def sampleUnmarshal (body : List UInt8) : Decoded :=
  if body = [1] then { sensors := [("1", kitchen)], err := none }
  else if body = [2] then { sensors := [("1", pantry), ("2", bathroom)], err := none }
  else if body = [3] then
    { sensors := [("1", kitchen)]
      err := some "json: cannot unmarshal string into Go struct field of type int" }
  else { sensors := [], err := some "unexpected end of JSON input" }

/-! ## Publishing one record -/

section Publish

variable {F : Type} [Float64Ops F]

theorem publish_errorCtr (reg : Registry F) (r : Sensor) :
    (publish reg r).errorCtr = reg.errorCtr := by
  unfold publish
  split_ifs <;> rfl

theorem publishAll_errorCtr (reg : Registry F) (sensors : SensorMap) :
    (publishAll reg sensors).errorCtr = reg.errorCtr := by
  unfold publishAll
  induction sensors generalizing reg with
  | nil => rfl
  | cons kv rest ih => rw [List.foldl_cons, ih, publish_errorCtr]

/-- A series that a record does not write keeps its value when the record is published. -/
theorem publish_gauge_of_not_written (reg : Registry F) (r : Sensor) (fam : Family)
    (ls : Labels) (h : ¬ (sensorLabels r = ls ∧ fam ∈ familiesOf r.Type_)) :
    (publish reg r).gauge fam ls = reg.gauge fam ls := by
  unfold publish
  unfold familiesOf at h
  by_cases hl : ls = sensorLabels r
  · subst hl
    split_ifs at h ⊢ <;> cases fam <;> simp_all [Registry.gauge, GaugeVec.set]
  · split_ifs <;> cases fam <;> simp [Registry.gauge, GaugeVec.set, hl]

theorem publishAll_gauge_of_not_written (reg : Registry F) (sensors : SensorMap) (fam : Family)
    (ls : Labels)
    (h : ∀ kv ∈ sensors, ¬ (sensorLabels kv.2 = ls ∧ fam ∈ familiesOf kv.2.Type_)) :
    (publishAll reg sensors).gauge fam ls = reg.gauge fam ls := by
  unfold publishAll
  induction sensors generalizing reg with
  | nil => rfl
  | cons kv rest ih =>
    rw [List.foldl_cons, ih _ (fun x hx => h x (List.mem_cons_of_mem _ hx))]
    exact publish_gauge_of_not_written reg kv.2 fam ls (h kv (List.mem_cons_self _ _))

/-- A record writes, under its own label set, every family that `familiesOf`
lists for its type: the series exists afterwards. -/
theorem publish_gauge_of_written (reg : Registry F) (r : Sensor) (fam : Family)
    (h : fam ∈ familiesOf r.Type_) :
    ((publish reg r).gauge fam (sensorLabels r)).isSome = true := by
  unfold publish
  unfold familiesOf at h
  split_ifs at h ⊢ <;> cases fam <;> simp_all [Registry.gauge, GaugeVec.set]

/-- C1: publishing a record of type `ZHATemperature` sets the temperature
series under the label set (name, uid, manufacturer, model, type) of the
record to `float64(State.Temperature) / 100.0`, and the battery series under
the same label set to `float64(Config.Battery)`. -/
theorem publish_ZHATemperature (reg : Registry F) (r : Sensor)
    (h : r.Type_ = "ZHATemperature") :
    (publish reg r).tmpMetric
        { name := r.Name, uid := r.UID, manufacturer := r.Manufacturer, model := r.ModelID,
          type := r.Type_ }
      = some (Float64Ops.div (Float64Ops.ofInt r.State.Temperature) Float64Ops.hundred) ∧
    (publish reg r).btryMetric
        { name := r.Name, uid := r.UID, manufacturer := r.Manufacturer, model := r.ModelID,
          type := r.Type_ }
      = some (Float64Ops.ofInt r.Config.Battery) := by
  unfold publish
  simp [h, GaugeVec.set, sensorLabels]

/-- C2: publishing a record of type `ZHAHumidity` sets the humidity series
under the label set of the record to `float64(State.Humidity) / 100.0` and
leaves the battery, temperature and pressure vectors (every series of them)
and the error counter as they were. -/
theorem publish_ZHAHumidity (reg : Registry F) (r : Sensor) (h : r.Type_ = "ZHAHumidity") :
    (publish reg r).humidMetric
        { name := r.Name, uid := r.UID, manufacturer := r.Manufacturer, model := r.ModelID,
          type := r.Type_ }
      = some (Float64Ops.div (Float64Ops.ofInt r.State.Humidity) Float64Ops.hundred) ∧
    (publish reg r).btryMetric = reg.btryMetric ∧
    (publish reg r).tmpMetric = reg.tmpMetric ∧
    (publish reg r).pressureMetric = reg.pressureMetric ∧
    (publish reg r).errorCtr = reg.errorCtr := by
  unfold publish
  simp [h, GaugeVec.set, sensorLabels]

/-- C3: publishing a record of type `ZHAPressure` sets the pressure series
under the label set of the record to `float64(State.Pressure)`, with no
division, and leaves the battery, temperature and humidity vectors and the
error counter as they were. -/
theorem publish_ZHAPressure (reg : Registry F) (r : Sensor) (h : r.Type_ = "ZHAPressure") :
    (publish reg r).pressureMetric
        { name := r.Name, uid := r.UID, manufacturer := r.Manufacturer, model := r.ModelID,
          type := r.Type_ }
      = some (Float64Ops.ofInt r.State.Pressure) ∧
    (publish reg r).btryMetric = reg.btryMetric ∧
    (publish reg r).tmpMetric = reg.tmpMetric ∧
    (publish reg r).humidMetric = reg.humidMetric ∧
    (publish reg r).errorCtr = reg.errorCtr := by
  unfold publish
  simp [h, GaugeVec.set, sensorLabels]

/-- C4: publishing a record whose type is none of `ZHATemperature`,
`ZHAHumidity`, `ZHAPressure` returns the registry unchanged: no series of any
gauge changes and the error counter is not incremented. -/
theorem publish_unrecognized (reg : Registry F) (r : Sensor)
    (h1 : r.Type_ ≠ "ZHATemperature") (h2 : r.Type_ ≠ "ZHAHumidity")
    (h3 : r.Type_ ≠ "ZHAPressure") :
    publish reg r = reg := by
  unfold publish
  simp [h1, h2, h3]

/-- C1 at the record of the end-to-end scenario, in exact arithmetic:
temperature 2150 and battery 87 give 21.5 and 87 under the labels
name=Kitchen, uid=00:11, manufacturer=dresden, model=SML001,
type=ZHATemperature. -/
theorem publish_ZHATemperature_witness :
    kitchen.Type_ = "ZHATemperature" ∧
    (publish (Registry.initial ℚ) kitchen).tmpMetric
        { name := "Kitchen", uid := "00:11", manufacturer := "dresden", model := "SML001",
          type := "ZHATemperature" } = some (21.5 : ℚ) ∧
    (publish (Registry.initial ℚ) kitchen).btryMetric
        { name := "Kitchen", uid := "00:11", manufacturer := "dresden", model := "SML001",
          type := "ZHATemperature" } = some (87 : ℚ) := by
  have h := publish_ZHATemperature (Registry.initial ℚ) kitchen rfl
  refine ⟨rfl, ?_, ?_⟩
  · rw [show (21.5 : ℚ) = Float64Ops.div (Float64Ops.ofInt kitchen.State.Temperature)
        Float64Ops.hundred by
      simp only [kitchen, Float64Ops.div, Float64Ops.ofInt, Float64Ops.hundred]; norm_num]
    exact h.1
  · rw [show (87 : ℚ) = Float64Ops.ofInt kitchen.Config.Battery by
      simp only [kitchen, Float64Ops.ofInt]; norm_num]
    exact h.2

/-- C2 at a humidity record, from a registry that already holds the series
of `kitchen`: humidity 5525 gives 55.25, and the battery and temperature
series of `kitchen` are still 87 and 21.5. -/
theorem publish_ZHAHumidity_witness :
    bathroom.Type_ = "ZHAHumidity" ∧
    (publish (publish (Registry.initial ℚ) kitchen) bathroom).humidMetric
        { name := "Bathroom", uid := "00:12", manufacturer := "dresden", model := "SML001",
          type := "ZHAHumidity" } = some (55.25 : ℚ) ∧
    (publish (publish (Registry.initial ℚ) kitchen) bathroom).btryMetric
      = (publish (Registry.initial ℚ) kitchen).btryMetric ∧
    (publish (publish (Registry.initial ℚ) kitchen) bathroom).tmpMetric
      = (publish (Registry.initial ℚ) kitchen).tmpMetric ∧
    (publish (publish (Registry.initial ℚ) kitchen) bathroom).btryMetric (sensorLabels bathroom)
      = none := by
  have h := publish_ZHAHumidity (publish (Registry.initial ℚ) kitchen) bathroom rfl
  refine ⟨rfl, ?_, h.2.1, h.2.2.1, ?_⟩
  · rw [show (55.25 : ℚ) = Float64Ops.div (Float64Ops.ofInt bathroom.State.Humidity)
        Float64Ops.hundred by
      simp only [bathroom, Float64Ops.div, Float64Ops.ofInt, Float64Ops.hundred]; norm_num]
    exact h.1
  · rw [h.2.1]
    simp [publish, kitchen, bathroom, sensorLabels, GaugeVec.set, Registry.initial]

/-- C3 at a pressure record: pressure 1013 gives 1013, and no battery series
exists for the record afterwards. -/
theorem publish_ZHAPressure_witness :
    attic.Type_ = "ZHAPressure" ∧
    (publish (Registry.initial ℚ) attic).pressureMetric
        { name := "Attic", uid := "00:13", manufacturer := "dresden", model := "SML001",
          type := "ZHAPressure" } = some (1013 : ℚ) ∧
    (publish (Registry.initial ℚ) attic).btryMetric (sensorLabels attic) = none := by
  have h := publish_ZHAPressure (Registry.initial ℚ) attic rfl
  refine ⟨rfl, ?_, ?_⟩
  · rw [show (1013 : ℚ) = Float64Ops.ofInt attic.State.Pressure by
      simp only [attic, Float64Ops.ofInt]; norm_num]
    exact h.1
  · rw [h.2.1]
    rfl

/-- C4 at the types `zhatemperature`, `ZHATemperature ` (trailing blank) and
the empty string: none of them is recognized. -/
theorem publish_unrecognized_witness :
    (kitchenTyped "zhatemperature").Type_ ≠ "ZHATemperature" ∧
    (kitchenTyped "zhatemperature").Type_ ≠ "ZHAHumidity" ∧
    (kitchenTyped "zhatemperature").Type_ ≠ "ZHAPressure" ∧
    publish (Registry.initial ℚ) (kitchenTyped "zhatemperature") = Registry.initial ℚ ∧
    publish (Registry.initial ℚ) (kitchenTyped "ZHATemperature ") = Registry.initial ℚ ∧
    publish (Registry.initial ℚ) (kitchenTyped "") = Registry.initial ℚ :=
  ⟨by decide, by decide, by decide,
   publish_unrecognized _ (kitchenTyped "zhatemperature") (by decide) (by decide) (by decide),
   publish_unrecognized _ (kitchenTyped "ZHATemperature ") (by decide) (by decide) (by decide),
   publish_unrecognized _ (kitchenTyped "") (by decide) (by decide) (by decide)⟩

/-- The series of `kitchen` after it was published to the initial registry. -/
theorem publish_ZHATemperature_values :
    (publish (Registry.initial ℚ) kitchen).tmpMetric (sensorLabels kitchen) = some (21.5 : ℚ) ∧
    (publish (Registry.initial ℚ) kitchen).btryMetric (sensorLabels kitchen)
      = some (87 : ℚ) := by
  constructor
  · simp only [publish, kitchen, sensorLabels, Float64Ops.div, Float64Ops.ofInt,
      Float64Ops.hundred]
    norm_num [GaugeVec.set]
  · simp only [publish, kitchen, sensorLabels, Float64Ops.ofInt]
    norm_num [GaugeVec.set]

/-- A successful cycle, seen from one temperature record: when every record
of the response that carries the label set of `r` has the readings of `r`
(for instance when `r` is the only one with its label set), the two series of
`r` hold the values of `r` after the whole response was published. -/
theorem publishAll_ZHATemperature (reg : Registry F) (sensors : SensorMap) (k : String)
    (r : Sensor) (hmem : (k, r) ∈ sensors) (hT : r.Type_ = "ZHATemperature")
    (hsame : ∀ kv ∈ sensors, sensorLabels kv.2 = sensorLabels r →
      kv.2.State.Temperature = r.State.Temperature ∧ kv.2.Config.Battery = r.Config.Battery) :
    (publishAll reg sensors).tmpMetric (sensorLabels r)
      = some (Float64Ops.div (Float64Ops.ofInt r.State.Temperature) Float64Ops.hundred) ∧
    (publishAll reg sensors).btryMetric (sensorLabels r)
      = some (Float64Ops.ofInt r.Config.Battery) := by
  induction sensors using List.reverseRecOn with
  | nil => exact absurd hmem (List.not_mem_nil _)
  | append_singleton rest last ih =>
    have hstep : publishAll reg (rest ++ [last]) = publish (publishAll reg rest) last.2 := by
      simp [publishAll, List.foldl_append]
    rw [hstep]
    by_cases hl : sensorLabels last.2 = sensorLabels r
    · have hv := hsame last (List.mem_append_right _ (List.mem_singleton_self _)) hl
      have hty : last.2.Type_ = "ZHATemperature" := by
        have := congrArg Labels.type hl
        simpa [sensorLabels, hT] using this
      unfold publish
      simp [hty, GaugeVec.set, hl, hv.1, hv.2]
    · have hin : (k, r) ∈ rest := by
        rcases List.mem_append.mp hmem with h | h
        · exact h
        · rw [List.mem_singleton] at h
          rw [← h] at hl
          exact absurd rfl hl
      have ih2 := ih hin (fun kv hkv => hsame kv (List.mem_append_left _ hkv))
      have ht := publish_gauge_of_not_written (publishAll reg rest) last.2 .temperature
        (sensorLabels r) (fun hw => hl hw.1)
      have hb := publish_gauge_of_not_written (publishAll reg rest) last.2 .battery
        (sensorLabels r) (fun hw => hl hw.1)
      simp only [Registry.gauge] at ht hb
      rw [ht, hb]
      exact ih2

end Publish

/-! ## Poll cycles -/

section Cycle

variable {F : Type} [Float64Ops F]

theorem cycle_of_pollFails (unmarshal : List UInt8 → Decoded) (url : URL) (reg : Registry F)
    (httpGet : String → Except GoError Response) (h : pollFails unmarshal url httpGet = true) :
    cycle unmarshal url reg httpGet = reg.incErrorCtr := by
  unfold pollFails at h
  unfold cycle
  simp only [decide_eq_true_eq] at h
  simp [h]

theorem cycle_of_not_pollFails (unmarshal : List UInt8 → Decoded) (url : URL)
    (reg : Registry F) (httpGet : String → Except GoError Response)
    (h : pollFails unmarshal url httpGet = false) :
    cycle unmarshal url reg httpGet
      = publishAll reg (pollSensors httpGet unmarshal url).1 := by
  unfold pollFails at h
  unfold cycle
  simp only [decide_eq_false_iff_not, not_not] at h
  simp [h]

/-- The poll fails when `http.Get` returns an error, and when it returns a
response whose body `json.Unmarshal` rejects. -/
theorem pollFails_of_error (unmarshal : List UInt8 → Decoded) (url : URL)
    (httpGet : String → Except GoError Response)
    (h : (∃ e, httpGet url.String_ = .error e) ∨
      (∃ resp e, httpGet url.String_ = .ok resp ∧ (unmarshal resp.body).err = some e)) :
    pollFails unmarshal url httpGet = true := by
  unfold pollFails pollSensors
  rcases h with ⟨e, he⟩ | ⟨resp, e, hr, he⟩
  · simp [he]
  · simp [hr, he]

/-- C5: a cycle whose poll fails, that is `pollSensors` returns a non-nil
error, in particular because `http.Get` returns a transport error or because
`json.Unmarshal` returns an error for the body (whatever entries it stored
before failing), increments the error counter by exactly 1 and leaves all four
gauge vectors as they were. -/
theorem cycle_poll_failure (unmarshal : List UInt8 → Decoded) (url : URL) (reg : Registry F)
    (httpGet : String → Except GoError Response)
    (h : (pollSensors httpGet unmarshal url).2 ≠ none ∨
      (∃ e, httpGet url.String_ = .error e) ∨
      (∃ resp e, httpGet url.String_ = .ok resp ∧ (unmarshal resp.body).err = some e)) :
    (cycle unmarshal url reg httpGet).errorCtr = reg.errorCtr + 1 ∧
    (cycle unmarshal url reg httpGet).tmpMetric = reg.tmpMetric ∧
    (cycle unmarshal url reg httpGet).btryMetric = reg.btryMetric ∧
    (cycle unmarshal url reg httpGet).humidMetric = reg.humidMetric ∧
    (cycle unmarshal url reg httpGet).pressureMetric = reg.pressureMetric := by
  have hf : pollFails unmarshal url httpGet = true := by
    rcases h with h | h
    · simpa [pollFails] using h
    · exact pollFails_of_error unmarshal url httpGet h
  rw [cycle_of_pollFails unmarshal url reg httpGet hf]
  exact ⟨rfl, rfl, rfl, rfl, rfl⟩

/-- C5 at a body that fails to decode after one valid entry was stored, and
at an unreachable gateway, both from the registry that holds the series of
`kitchen`: the counter goes from 0 to 1, the entry of the failed response is
not published again, and the series of `kitchen` keep 21.5 and 87. -/
theorem cycle_poll_failure_witness :
    (∃ resp e, respond [3] (pollURL ⟨"abc", "localhost", 80, false⟩).String_ = .ok resp ∧
      (sampleUnmarshal resp.body).err = some e) ∧
    (sampleUnmarshal [3]).sensors = [("1", kitchen)] ∧
    (cycle sampleUnmarshal (pollURL ⟨"abc", "localhost", 80, false⟩)
      (publish (Registry.initial ℚ) kitchen) (respond [3])).errorCtr = 1 ∧
    (cycle sampleUnmarshal (pollURL ⟨"abc", "localhost", 80, false⟩)
      (publish (Registry.initial ℚ) kitchen) (respond [3])).tmpMetric
        = (publish (Registry.initial ℚ) kitchen).tmpMetric ∧
    (∃ e, networkDown (pollURL ⟨"abc", "localhost", 80, false⟩).String_ = .error e) ∧
    (cycle sampleUnmarshal (pollURL ⟨"abc", "localhost", 80, false⟩)
      (publish (Registry.initial ℚ) kitchen) networkDown).errorCtr = 1 ∧
    (cycle sampleUnmarshal (pollURL ⟨"abc", "localhost", 80, false⟩)
      (publish (Registry.initial ℚ) kitchen) networkDown).btryMetric
        = (publish (Registry.initial ℚ) kitchen).btryMetric :=
  have hyp : ∃ resp e, respond [3] (pollURL ⟨"abc", "localhost", 80, false⟩).String_ = .ok resp ∧
      (sampleUnmarshal resp.body).err = some e :=
    ⟨_, _, rfl, rfl⟩
  have hyp2 : ∃ e, networkDown (pollURL ⟨"abc", "localhost", 80, false⟩).String_ = .error e :=
    ⟨_, rfl⟩
  have h := cycle_poll_failure sampleUnmarshal (pollURL ⟨"abc", "localhost", 80, false⟩)
    (publish (Registry.initial ℚ) kitchen) (respond [3]) (Or.inr (Or.inr hyp))
  have h2 := cycle_poll_failure sampleUnmarshal (pollURL ⟨"abc", "localhost", 80, false⟩)
    (publish (Registry.initial ℚ) kitchen) networkDown (Or.inr (Or.inl hyp2))
  ⟨hyp, rfl, h.1, h.2.1, hyp2, h2.1, h2.2.2.1⟩

/-- C8: in a successful cycle, a series (family, label set) that no record of
the response writes has after the cycle the value it had before; in
particular every series under a label set that no record of the response
carries. -/
theorem cycle_success_frame (unmarshal : List UInt8 → Decoded) (url : URL) (reg : Registry F)
    (httpGet : String → Except GoError Response) (sensors : SensorMap)
    (hpoll : pollSensors httpGet unmarshal url = (sensors, none)) :
    (∀ fam ls,
      (∀ kv ∈ sensors, ¬ (sensorLabels kv.2 = ls ∧ fam ∈ familiesOf kv.2.Type_)) →
      (cycle unmarshal url reg httpGet).gauge fam ls = reg.gauge fam ls) ∧
    (∀ ls, (∀ kv ∈ sensors, sensorLabels kv.2 ≠ ls) →
      ∀ fam, (cycle unmarshal url reg httpGet).gauge fam ls = reg.gauge fam ls) := by
  have hc : cycle unmarshal url reg httpGet = publishAll reg sensors := by
    rw [cycle_of_not_pollFails unmarshal url reg httpGet (by simp [pollFails, hpoll]), hpoll]
  rw [hc]
  refine ⟨fun fam ls h => publishAll_gauge_of_not_written reg sensors fam ls h, ?_⟩
  intro ls h fam
  exact publishAll_gauge_of_not_written reg sensors fam ls (fun kv hkv hw => h kv hkv hw.1)

/-- The error counter after a cycle: one more when the poll fails, the same
otherwise. -/
theorem cycle_errorCtr (unmarshal : List UInt8 → Decoded) (url : URL) (reg : Registry F)
    (httpGet : String → Except GoError Response) :
    (cycle unmarshal url reg httpGet).errorCtr
      = reg.errorCtr + (if pollFails unmarshal url httpGet = true then 1 else 0) := by
  cases h : pollFails unmarshal url httpGet
  · rw [cycle_of_not_pollFails unmarshal url reg httpGet h, publishAll_errorCtr]
    simp
  · rw [cycle_of_pollFails unmarshal url reg httpGet h]
    simp [Registry.incErrorCtr]

theorem runCycles_errorCtr (unmarshal : List UInt8 → Decoded) (url : URL) (reg : Registry F)
    (nets : List (String → Except GoError Response)) :
    (runCycles unmarshal url reg nets).errorCtr
      = reg.errorCtr + nets.countP (pollFails unmarshal url) := by
  unfold runCycles
  induction nets generalizing reg with
  | nil => simp
  | cons net rest ih =>
    rw [List.foldl_cons, ih, cycle_errorCtr, List.countP_cons]
    omega

/-- C8 on two cycles: the first publishes `kitchen`; the response of the
second holds the renamed sensor and `bathroom` but no record labelled as
`kitchen`, and the temperature and battery series of `kitchen` are still there
with the values 21.5 and 87. -/
theorem cycle_success_frame_witness :
    pollSensors (respond [2]) sampleUnmarshal (pollURL ⟨"abc", "localhost", 80, false⟩)
      = ([("1", pantry), ("2", bathroom)], none) ∧
    (cycle sampleUnmarshal (pollURL ⟨"abc", "localhost", 80, false⟩)
      (cycle sampleUnmarshal (pollURL ⟨"abc", "localhost", 80, false⟩) (Registry.initial ℚ)
        (respond [1])) (respond [2])).gauge .temperature (sensorLabels kitchen)
      = some (21.5 : ℚ) ∧
    (cycle sampleUnmarshal (pollURL ⟨"abc", "localhost", 80, false⟩)
      (cycle sampleUnmarshal (pollURL ⟨"abc", "localhost", 80, false⟩) (Registry.initial ℚ)
        (respond [1])) (respond [2])).gauge .battery (sensorLabels kitchen)
      = some (87 : ℚ) := by
  have hpoll : pollSensors (respond [2]) sampleUnmarshal
      (pollURL ⟨"abc", "localhost", 80, false⟩) = ([("1", pantry), ("2", bathroom)], none) := rfl
  have h := (cycle_success_frame sampleUnmarshal (pollURL ⟨"abc", "localhost", 80, false⟩)
    (cycle sampleUnmarshal (pollURL ⟨"abc", "localhost", 80, false⟩) (Registry.initial ℚ)
      (respond [1])) (respond [2]) _ hpoll).2 (sensorLabels kitchen) (by decide)
  have h1 : cycle sampleUnmarshal (pollURL ⟨"abc", "localhost", 80, false⟩) (Registry.initial ℚ)
      (respond [1]) = publish (Registry.initial ℚ) kitchen := rfl
  have hk := publish_ZHATemperature_values
  refine ⟨hpoll, ?_, ?_⟩
  · rw [h .temperature, h1]
    exact hk.1
  · rw [h .battery, h1]
    exact hk.2

/-- C9: starting from the initial registry, after the cycles `nets` the error
counter equals the number of cycles whose poll returned an error; each cycle
adds 1 when its poll fails and 0 otherwise, so no cycle decreases it; and
publishing records never changes it. -/
theorem errorCtr_counts_failed_polls (unmarshal : List UInt8 → Decoded) (url : URL)
    (nets : List (String → Except GoError Response)) :
    (runCycles unmarshal url (Registry.initial F) nets).errorCtr
      = nets.countP (pollFails unmarshal url) ∧
    (∀ (reg : Registry F) (net : String → Except GoError Response),
      (cycle unmarshal url reg net).errorCtr
        = reg.errorCtr + (if pollFails unmarshal url net = true then 1 else 0)) ∧
    (∀ (reg : Registry F) (net : String → Except GoError Response),
      reg.errorCtr ≤ (cycle unmarshal url reg net).errorCtr) ∧
    (∀ (reg : Registry F) (more : List (String → Except GoError Response)),
      (runCycles unmarshal url reg nets).errorCtr
        ≤ (runCycles unmarshal url reg (nets ++ more)).errorCtr) ∧
    (∀ (reg : Registry F) (sensors : SensorMap),
      (publishAll reg sensors).errorCtr = reg.errorCtr) := by
  refine ⟨?_, fun reg net => cycle_errorCtr unmarshal url reg net, ?_, ?_,
    fun reg sensors => publishAll_errorCtr reg sensors⟩
  · rw [runCycles_errorCtr]
    simp [Registry.initial]
  · intro reg net
    rw [cycle_errorCtr]
    exact Nat.le_add_right _ _
  · intro reg more
    rw [runCycles_errorCtr, runCycles_errorCtr, List.countP_append]
    omega

/-- Publishing two records with different label sets commutes. -/
theorem publish_comm (reg : Registry F) (a b : Sensor)
    (hab : sensorLabels a ≠ sensorLabels b) :
    publish (publish reg a) b = publish (publish reg b) a := by
  have hba : sensorLabels b ≠ sensorLabels a := fun h => hab h.symm
  have key : ∀ (x y : F) (l : Labels) (g : GaugeVec F),
      (if l = sensorLabels b then some x else if l = sensorLabels a then some y else g l)
        = (if l = sensorLabels a then some y else if l = sensorLabels b then some x else g l) := by
    intro x y l g
    by_cases h1 : l = sensorLabels a
    · subst h1
      simp [hab]
    · simp [h1]
  unfold publish
  split_ifs <;> simp only [GaugeVec.set, Registry.mk.injEq, and_true, true_and] <;>
    first
      | rfl
      | (funext l; exact key _ _ l _)
      | (constructor <;> funext l <;> exact key _ _ l _)

/-- Cycles that all fail only move the error counter: after them it has grown
by their number and the four gauge vectors are as before. This is the
scenario of an unreachable gateway. -/
theorem runCycles_all_fail (unmarshal : List UInt8 → Decoded) (url : URL) (reg : Registry F)
    (nets : List (String → Except GoError Response))
    (h : ∀ net ∈ nets, pollFails unmarshal url net = true) :
    runCycles unmarshal url reg nets = { reg with errorCtr := reg.errorCtr + nets.length } := by
  unfold runCycles
  induction nets generalizing reg with
  | nil => rfl
  | cons net rest ih =>
    rw [List.foldl_cons, cycle_of_pollFails unmarshal url reg net (h net (List.mem_cons_self _ _)),
      ih _ (fun x hx => h x (List.mem_cons_of_mem _ hx))]
    simp only [Registry.incErrorCtr, List.length_cons, Registry.mk.injEq, true_and]
    omega

/-- With the gateway unreachable for `n` cycles from startup, the error
counter is `n` and no series exists. -/
theorem runCycles_networkDown (unmarshal : List UInt8 → Decoded) (url : URL) (n : Nat) :
    runCycles unmarshal url (Registry.initial F) (List.replicate n networkDown)
      = { Registry.initial F with errorCtr := n } := by
  rw [runCycles_all_fail unmarshal url _ _ (by
    intro net hnet
    rw [List.eq_of_mem_replicate hnet]
    rfl)]
  simp [Registry.initial]

/-- The end-to-end scenario: the cycle whose response decodes to the single
entry `"1" ↦ kitchen` publishes exactly that record. -/
theorem cycle_kitchen :
    cycle sampleUnmarshal (pollURL ⟨"abc", "localhost", 80, false⟩) (Registry.initial ℚ)
      (respond [1]) = publish (Registry.initial ℚ) kitchen :=
  rfl

/-- Two records with the same label set do not commute in general: the one
published last determines the series. -/
theorem publish_same_labels_last_wins :
    sensorLabels kitchen
      = sensorLabels { kitchen with State := { kitchen.State with Temperature := 1900 } } ∧
    (publish (publish (Registry.initial ℚ) kitchen)
      { kitchen with State := { kitchen.State with Temperature := 1900 } }).tmpMetric
        (sensorLabels kitchen) = some (19 : ℚ) ∧
    (publish (publish (Registry.initial ℚ)
      { kitchen with State := { kitchen.State with Temperature := 1900 } }) kitchen).tmpMetric
        (sensorLabels kitchen) = some (21.5 : ℚ) := by
  refine ⟨rfl, ?_, ?_⟩
  · simp only [publish, kitchen, sensorLabels, Float64Ops.div, Float64Ops.ofInt,
      Float64Ops.hundred]
    norm_num [GaugeVec.set]
  · simp only [publish, kitchen, sensorLabels, Float64Ops.div, Float64Ops.ofInt,
      Float64Ops.hundred]
    norm_num [GaugeVec.set]

end Cycle

/-! ## The polling URL -/

theorem shouldEscape_space (mode : Encoding) : shouldEscape 32 mode = true := by
  cases mode <;> rfl

theorem escape_append (a b : String) (mode : Encoding) :
    escape (a ++ b) mode = escape a mode ++ escape b mode := by
  unfold escape
  rw [String.data_append, List.flatMap_append, List.flatMap_append]
  rfl

theorem escapeChar_of_kept (mode : Encoding) (c : Char) (h : keptVerbatim mode c = true) :
    (String.utf8EncodeChar c).flatMap (escapeByte mode) = [c] := by
  unfold keptVerbatim at h
  simp only [Bool.and_eq_true, decide_eq_true_eq, Bool.not_eq_true'] at h
  obtain ⟨h1, h2⟩ := h
  have henc : String.utf8EncodeChar c = [c.val.toUInt8] := by
    simp [String.utf8EncodeChar, h1]
  rw [henc]
  have hne : byteIs c.val.toUInt8 ' ' = false := by
    by_contra hc
    simp only [Bool.not_eq_false] at hc
    have : c.val.toUInt8 = 32 := by
      unfold byteIs at hc
      simp at hc
      apply UInt8.eq_of_val_eq
      apply Fin.ext
      simpa using hc
    rw [this, shouldEscape_space] at h2
    exact absurd h2 (by decide)
  simp only [List.flatMap_cons, List.flatMap_nil, List.append_nil]
  unfold escapeByte
  simp [hne, h2]
  have hlt : c.val.toNat < 256 := by
    have : c.val.toNat ≤ 127 := h1
    omega
  rw [Nat.mod_eq_of_lt hlt]
  exact Char.ofNat_toNat c

theorem escape_eq_self (mode : Encoding) (s : String)
    (h : ∀ c ∈ s.data, keptVerbatim mode c = true) : escape s mode = s := by
  unfold escape
  have key : ∀ l : List Char, (∀ c ∈ l, keptVerbatim mode c = true) →
      (l.flatMap String.utf8EncodeChar).flatMap (escapeByte mode) = l := by
    intro l
    induction l with
    | nil => intro _; rfl
    | cons c rest ih =>
      intro hl
      rw [List.flatMap_cons, List.flatMap_append,
        escapeChar_of_kept mode c (hl c (List.mem_cons_self _ _)),
        ih (fun x hx => hl x (List.mem_cons_of_mem _ hx))]
      rfl
  rw [key s.data h]

theorem keptVerbatim_digitChar (n : Nat) :
    keptVerbatim .encodeHost (Nat.digitChar (n % 10)) = true := by
  have h : n % 10 < 10 := Nat.mod_lt _ (by decide)
  interval_cases n % 10 <;> rfl

theorem keptVerbatim_toDigitsCore (fuel n : Nat) (ds : List Char)
    (hds : ∀ c ∈ ds, keptVerbatim .encodeHost c = true) :
    ∀ c ∈ Nat.toDigitsCore 10 fuel n ds, keptVerbatim .encodeHost c = true := by
  induction fuel generalizing n ds with
  | zero => simpa [Nat.toDigitsCore] using hds
  | succ fuel ih =>
    have hcons : ∀ c ∈ Nat.digitChar (n % 10) :: ds, keptVerbatim .encodeHost c = true := by
      intro c hc
      rcases List.mem_cons.mp hc with rfl | hc
      · exact keptVerbatim_digitChar n
      · exact hds c hc
    unfold Nat.toDigitsCore
    by_cases h0 : n / 10 = 0
    · simpa [h0] using hcons
    · simpa [h0] using ih _ _ hcons

theorem keptVerbatim_natRepr (n : Nat) :
    ∀ c ∈ (Nat.repr n).data, keptVerbatim .encodeHost c = true := by
  unfold Nat.repr Nat.toDigits
  exact keptVerbatim_toDigitsCore _ _ _ (by simp)

theorem keptVerbatim_port (port : Int) :
    ∀ c ∈ (toString port).data, keptVerbatim .encodeHost c = true := by
  cases port with
  | ofNat m => exact keptVerbatim_natRepr m
  | negSucc m =>
    show ∀ c ∈ ("-" ++ Nat.repr (Nat.succ m)).data, _
    rw [String.data_append]
    intro c hc
    rcases List.mem_append.mp hc with hc | hc
    · simp at hc
      subst hc
      rfl
    · exact keptVerbatim_natRepr _ c hc

theorem string_append_ne_empty_right (a b : String) (h : b ≠ "") : a ++ b ≠ "" := by
  intro hab
  apply h
  have hd := congrArg String.data hab
  rw [String.data_append] at hd
  apply String.ext
  exact (List.append_eq_nil.mp hd).2

theorem string_append_ne_empty_left (a b : String) (h : a ≠ "") : a ++ b ≠ "" := by
  intro hab
  apply h
  have hd := congrArg String.data hab
  rw [String.data_append] at hd
  apply String.ext
  exact (List.append_eq_nil.mp hd).1

theorem pollURL_host_ne_empty (fl : Flags) : (pollURL fl).Host ≠ "" := by
  show fl.host ++ ":" ++ toString fl.port ≠ ""
  exact string_append_ne_empty_left _ _ (string_append_ne_empty_right _ _ (by decide))

theorem pollURL_escapedPath (fl : Flags) :
    (pollURL fl).EscapedPath = "api/" ++ escape fl.token .encodePath ++ "/sensors" := by
  have hne : (pollURL fl).Path ≠ "*" := by
    show "api/" ++ fl.token ++ "/sensors" ≠ "*"
    intro h
    have hd := congrArg String.data h
    rw [String.data_append, String.data_append] at hd
    simp at hd
  unfold URL.EscapedPath
  rw [if_neg hne]
  show escape ("api/" ++ fl.token ++ "/sensors") .encodePath = _
  rw [escape_append, escape_append]
  rfl

theorem pollURL_String (fl : Flags) :
    (pollURL fl).String_
      = "http://" ++ escape fl.host .encodeHost ++ ":" ++ toString fl.port ++ "/api/"
          ++ escape fl.token .encodePath ++ "/sensors" := by
  have hhost := pollURL_host_ne_empty fl
  have hpath := pollURL_escapedPath fl
  have hp1 : "api/" ++ escape fl.token .encodePath ++ "/sensors" ≠ "" :=
    string_append_ne_empty_right _ _ (by decide)
  have hp2 : ("api/" ++ escape fl.token .encodePath ++ "/sensors").data.head? ≠ some '/' := by
    rw [String.data_append, String.data_append]
    simp
  have hs : (pollURL fl).Scheme = "http" := rfl
  have ho : (pollURL fl).Opaque = "" := rfl
  have hq : (pollURL fl).RawQuery = "" := rfl
  have hf : (pollURL fl).Fragment = "" := rfl
  have hfq : (pollURL fl).ForceQuery = false := rfl
  have hbuf : "" ++ "http" ++ ":" ++ "//" ++ escape (pollURL fl).Host .encodeHost ++ "/" ≠ "" :=
    string_append_ne_empty_right _ _ (by decide)
  unfold URL.String_
  simp only [hpath, hs, ho, hq, hf, hfq, hhost, hp1, hp2, hbuf, ne_eq, not_true_eq_false,
    not_false_eq_true, if_true, if_false, true_or, or_true, and_true, true_and, false_and,
    Bool.false_eq_true, or_false, and_self, show ¬ ("http" = "") by decide]
  have hesc : escape (pollURL fl).Host .encodeHost
      = escape fl.host .encodeHost ++ ":" ++ toString fl.port := by
    show escape (fl.host ++ ":" ++ toString fl.port) .encodeHost = _
    rw [escape_append, escape_append, escape_eq_self .encodeHost (toString fl.port)
      (keptVerbatim_port fl.port)]
    rfl
  rw [hesc]
  apply String.ext
  simp only [String.data_append, List.append_assoc]
  rfl

/-- C7, as stated, fails: the configuration token `a?b`, host `h`, port 80 is
accepted by `evalFlags`, and the requested URL carries the token as `a%3Fb`,
not verbatim. -/
theorem pollURL_String_counterexample :
    evalFlags ⟨"a?b", "h", 80, false⟩ = none ∧
    (pollURL ⟨"a?b", "h", 80, false⟩).String_ = "http://h:80/api/a%3Fb/sensors" ∧
    (pollURL ⟨"a?b", "h", 80, false⟩).String_
      ≠ "http://" ++ "h" ++ ":" ++ toString (80 : Int) ++ "/api/" ++ "a?b" ++ "/sensors" := by
  decide

/-- C7, amended: for every configuration accepted by `evalFlags` the URL that
`pollSensors` requests is `http://` + host + `:` + decimal port + `/api/` +
token + `/sensors` with host and token percent-escaped by `net/url` (as a host
and as a path); the path begins with a slash, and no query, fragment or user
information is added. When every character of the host is kept in a host and
every character of the token is kept in a path, host and token appear
verbatim. -/
theorem pollURL_String_accepted (fl : Flags) (_hacc : evalFlags fl = none) :
    (pollURL fl).String_
      = "http://" ++ escape fl.host .encodeHost ++ ":" ++ toString fl.port ++ "/api/"
          ++ escape fl.token .encodePath ++ "/sensors" ∧
    ((∀ c ∈ fl.host.data, keptVerbatim .encodeHost c = true) →
      (∀ c ∈ fl.token.data, keptVerbatim .encodePath c = true) →
      (pollURL fl).String_
        = "http://" ++ fl.host ++ ":" ++ toString fl.port ++ "/api/" ++ fl.token
            ++ "/sensors") := by
  refine ⟨pollURL_String fl, fun hh ht => ?_⟩
  rw [pollURL_String fl, escape_eq_self .encodeHost fl.host hh,
    escape_eq_self .encodePath fl.token ht]

/-- C7 amended, at token `0A1B2C3D4E`, host `192.168.0.222`, port 1702. -/
theorem pollURL_String_accepted_witness :
    evalFlags ⟨"0A1B2C3D4E", "192.168.0.222", 1702, false⟩ = none ∧
    (∀ c ∈ "192.168.0.222".data, keptVerbatim .encodeHost c = true) ∧
    (∀ c ∈ "0A1B2C3D4E".data, keptVerbatim .encodePath c = true) ∧
    (pollURL ⟨"0A1B2C3D4E", "192.168.0.222", 1702, false⟩).String_
      = "http://192.168.0.222:1702/api/0A1B2C3D4E/sensors" :=
  ⟨by decide, by decide, by decide,
    (pollURL_String_accepted ⟨"0A1B2C3D4E", "192.168.0.222", 1702, false⟩ (by decide)).2
      (by decide) (by decide)⟩

/-! ## Startup validation -/

/-- C6, as stated, fails: with token `abc` and port 80 supplied and no host
supplied, `evalFlags` returns nil. -/
theorem evalFlags_host_not_supplied_counterexample :
    (⟨some "abc", none, some 80, none⟩ : CommandLine).host = none ∧
    evalFlags (startupFlags ⟨some "abc", none, some 80, none⟩) = none := by
  decide

/-- C6, amended: `evalFlags` returns an error exactly when, after flag
parsing, the token is empty, the host is empty or the port is 0, and nil
exactly when all three are set. On the command line this means: an error
exactly when the token is missing or empty, the host is given as the empty
string, or the port is missing or 0. A host that is not supplied is
`localhost` and does not fail. -/
theorem evalFlags_iff (cl : CommandLine) :
    (∀ fl : Flags, evalFlags fl ≠ none ↔ (fl.token = "" ∨ fl.host = "" ∨ fl.port = 0)) ∧
    (∀ fl : Flags, evalFlags fl = none ↔ (fl.token ≠ "" ∧ fl.host ≠ "" ∧ fl.port ≠ 0)) ∧
    (evalFlags (startupFlags cl) ≠ none ↔
      ((cl.token = none ∨ cl.token = some "") ∨ cl.host = some "" ∨
        (cl.port = none ∨ cl.port = some 0))) ∧
    (startupFlags { cl with host := none }).host = "localhost" := by
  have h1 : ∀ fl : Flags, evalFlags fl = none ↔ (fl.token ≠ "" ∧ fl.host ≠ "" ∧ fl.port ≠ 0) := by
    intro fl
    unfold evalFlags
    split_ifs <;> simp_all
  have h2 : ∀ fl : Flags, evalFlags fl ≠ none ↔ (fl.token = "" ∨ fl.host = "" ∨ fl.port = 0) := by
    intro fl
    rw [Ne, h1]
    tauto
  refine ⟨h2, h1, ?_, rfl⟩
  rw [h2]
  obtain ⟨t, h, p, v⟩ := cl
  cases t <;> cases h <;> cases p <;>
    simp [startupFlags, flagParse, init]

/-! ## Order of publication -/

section Order

variable {F : Type} [Float64Ops F]

/-- C10: publishing two records whose label sets differ gives the same
registry in either order; hence for a response whose records have pairwise
different label sets, every order of iteration over the map gives the same
registry. -/
theorem publishAll_order_independent (reg : Registry F) :
    (∀ a b : Sensor, sensorLabels a ≠ sensorLabels b →
      publish (publish reg a) b = publish (publish reg b) a) ∧
    (∀ l1 l2 : SensorMap, l1.Perm l2 →
      l1.Pairwise (fun x y => sensorLabels x.2 ≠ sensorLabels y.2) →
      publishAll reg l1 = publishAll reg l2) := by
  refine ⟨fun a b hab => publish_comm reg a b hab, ?_⟩
  intro l1 l2 hperm hpw
  unfold publishAll
  refine List.Perm.foldl_eq' hperm ?_ reg
  have hall : ∀ x ∈ l1, ∀ y ∈ l1, x = y ∨ sensorLabels x.2 ≠ sensorLabels y.2 := by
    have hpw2 : l1.Pairwise (fun x y => x = y ∨ sensorLabels x.2 ≠ sensorLabels y.2) :=
      hpw.imp (fun h => Or.inr h)
    have hsymm : Symmetric
        (fun x y : String × Sensor => x = y ∨ sensorLabels x.2 ≠ sensorLabels y.2) := by
      intro x y hxy
      rcases hxy with h | h
      · exact Or.inl h.symm
      · exact Or.inr (fun h2 => h h2.symm)
    intro x hx y hy
    exact List.Pairwise.forall_of_forall hsymm (fun x _ => Or.inl rfl) hpw2 hx hy
  intro x hx y hy z
  rcases hall x hx y hy with h | h
  · rw [h]
  · exact publish_comm z x.2 y.2 h

/-- C10 at the response holding `kitchen` and `bathroom`, visited in both
orders. -/
theorem publishAll_order_independent_witness :
    sensorLabels kitchen ≠ sensorLabels bathroom ∧
    publish (publish (Registry.initial ℚ) kitchen) bathroom
      = publish (publish (Registry.initial ℚ) bathroom) kitchen ∧
    publishAll (Registry.initial ℚ) [("1", kitchen), ("2", bathroom)]
      = publishAll (Registry.initial ℚ) [("2", bathroom), ("1", kitchen)] :=
  ⟨by decide,
    (publishAll_order_independent (Registry.initial ℚ)).1 kitchen bathroom (by decide),
    (publishAll_order_independent (Registry.initial ℚ)).2 [("1", kitchen), ("2", bathroom)]
      [("2", bathroom), ("1", kitchen)] (List.Perm.swap _ _ _) (by decide)⟩

end Order

end DeconzExporter
